import Mathlib

/-!
Shallow embedding of the video-generator server core
(src/server/storage.ts and src/server/routes.ts).

Conventions of the embedding:
* JS `Map<string, T>` becomes a function `String → Option T`; `Map.set`
  is `MapSet` (point update), `Map.get` is application.
* TS `Partial<T>` update objects become structures of `Option` fields
  (`none` = key absent); the JS object spread `{...cur, ...upd}` becomes
  a field-wise merge where a present update field overrides.
* JS thrown errors carry a message string, so fallible computations are
  `Except String α`; a `catch (error)` block is a `match` on `.error`.
* Asynchronous timer scheduling (`setTimeout(poll, 5000)`) is modelled by
  a boolean "rescheduled" flag returned from each poll cycle, and the
  whole poll chain is driven by an explicit list of provider responses
  (one per cycle), since each cycle performs exactly one provider call.
* JS numbers used for `progress` become exact rationals `ℚ` (the source
  arithmetic is `Math.min(95, (attempts / maxAttempts) * 100)` on
  doubles; all values appearing here are far from the rounding error of
  binary doubles, so exact rationals decide every comparison below).
* Network effects (fetch results, Gemini SDK output, `Date.now()`,
  `randomUUID()`) are inputs: oracle structures and explicit parameters.
-/

/-- Point update of a function-encoded map, the model of JS `Map.set`. -/
def MapSet {α : Type} (m : String → Option α) (k : String) (v : α) :
    String → Option α :=
  fun j => if j = k then some v else m j

/-- Metadata object of a video record (schema `metadata`). -/
structure VideoMetadata where
  resolution : Option String := none
  fileSize : Option String := none
  format : Option String := none
deriving DecidableEq, Repr

/-- Job record (schema `videoGenerationResponseSchema`). -/
structure VideoGenerationResponse where
  id : String
  status : String
  videoUrl : Option String := none
  thumbnailUrl : Option String := none
  prompt : String
  duration : Nat
  model : String
  createdAt : String
  metadata : Option VideoMetadata := none
deriving DecidableEq, Repr

/-- Status record (schema `videoStatusSchema`). -/
structure VideoStatus where
  id : String
  status : String
  progress : Option ℚ := none
  message : Option String := none
  error : Option String := none
deriving DecidableEq, Repr

/-- Merge of one field under JS object spread: a present update field
overrides, an absent one keeps the current value. -/
def updOpt {α : Type} (new old : Option α) : Option α :=
  match new with
  | some v => some v
  | none => old

/-- A `Partial<VideoStatus>` update object (`none` = key absent). -/
structure StatusUpdate where
  status : Option String := none
  progress : Option ℚ := none
  message : Option String := none
  error : Option String := none
deriving DecidableEq, Repr

/-- A `Partial<VideoGenerationResponse>` update object. The
`thumbnailUrl` field is doubly optional because one call site passes the
key with an undefined value (`thumbnailUrl: thumbnailUrl` where the
variable was never assigned), which under spread clears the field. -/
structure VideoUpdate where
  status : Option String := none
  videoUrl : Option String := none
  thumbnailUrl : Option (Option String) := none
  metadata : Option VideoMetadata := none
deriving DecidableEq, Repr

/-- The spread `{...currentStatus, ...statusUpdate}`. -/
def mergeStatus (cur : VideoStatus) (u : StatusUpdate) : VideoStatus :=
  { cur with
    status := (u.status).getD cur.status
    progress := updOpt u.progress cur.progress
    message := updOpt u.message cur.message
    error := updOpt u.error cur.error }

/-- The spread `{...currentVideo, ...result}`. -/
def mergeVideo (cur : VideoGenerationResponse) (u : VideoUpdate) :
    VideoGenerationResponse :=
  { cur with
    status := (u.status).getD cur.status
    videoUrl := updOpt u.videoUrl cur.videoUrl
    thumbnailUrl := (u.thumbnailUrl).getD cur.thumbnailUrl
    metadata := updOpt u.metadata cur.metadata }

/-- The two in-memory maps of `MemStorage` (src/server/storage.ts). -/
structure MemStorage where
  videos : String → Option VideoGenerationResponse
  videoStatuses : String → Option VideoStatus

/-- The store with both maps empty (the `MemStorage` constructor). -/
def emptyStore : MemStorage :=
  { videos := fun _ => none, videoStatuses := fun _ => none }

/-- Fields of the `storeVideoGeneration` argument (the job without id). -/
structure VideoInit where
  prompt : String
  duration : Nat
  model : String
  status : String
  createdAt : String
deriving DecidableEq, Repr

/-- `MemStorage.storeVideoGeneration`: insert the job record under a
fresh id (the id is `randomUUID()` in the source, here a parameter) and
initialize the matching status record with progress 0. -/
def storeVideoGeneration (st : MemStorage) (newId : String)
    (video : VideoInit) : VideoGenerationResponse × MemStorage :=
  let videoWithId : VideoGenerationResponse :=
    { id := newId, status := video.status, prompt := video.prompt,
      duration := video.duration, model := video.model,
      createdAt := video.createdAt }
  let status : VideoStatus :=
    { id := newId, status := video.status, progress := some 0,
      message := some "Video generation started" }
  (videoWithId,
   { videos := MapSet st.videos newId videoWithId,
     videoStatuses := MapSet st.videoStatuses newId status })

/-- `MemStorage.getVideoGeneration`. -/
def getVideoGeneration (st : MemStorage) (id : String) :
    Option VideoGenerationResponse :=
  st.videos id

/-- `MemStorage.getVideoStatus`. -/
def getVideoStatus (st : MemStorage) (id : String) : Option VideoStatus :=
  st.videoStatuses id

/-- `MemStorage.updateVideoStatus`: merge into the existing status
record; leave the store untouched when the id is unknown. -/
def updateVideoStatus (st : MemStorage) (id : String) (u : StatusUpdate) :
    MemStorage :=
  match st.videoStatuses id with
  | none => st
  | some currentStatus =>
      { st with
        videoStatuses := MapSet st.videoStatuses id
          (mergeStatus currentStatus u) }

/-- `MemStorage.updateVideoResult`: merge into the existing job record;
leave the store untouched when the id is unknown. -/
def updateVideoResult (st : MemStorage) (id : String) (u : VideoUpdate) :
    MemStorage :=
  match st.videos id with
  | none => st
  | some currentVideo =>
      { st with
        videos := MapSet st.videos id (mergeVideo currentVideo u) }

/-! The poll loop of `pollVideoStatus` (src/server/routes.ts:141-225). -/

/-- The attempt cap of the poll loop (`maxAttempts = 60`). -/
def maxAttempts : Nat := 60

/-- Shape of a parsed Luma status response: the fields the poll loop
reads (`state`, `assets?.video`, `failure_reason`). -/
structure LumaStatus where
  state : String
  videoAsset : Option String := none
  failureReason : Option String := none
deriving DecidableEq, Repr

/-- The provider interaction of one poll cycle: either the parsed
Luma response or the message of a thrown error. -/
def PollResp : Type := Except String LumaStatus

/-- JS truthiness of an optional string (`undefined` and `""` falsy). -/
def optStrTruthy : Option String → Bool
  | none => false
  | some s => !(s == "")

/-- Tail of one poll cycle after the provider switch
(src/server/routes.ts:179-213): complete with asset, reschedule while
processing under the cap, or time out at the cap. The boolean records
whether `setTimeout(poll, 5000)` was called. -/
def pollTail (videoId : String) (attempts : Nat) (status : String)
    (videoUrl : Option String) (st : MemStorage) : MemStorage × Bool :=
  if status = "completed" ∧ optStrTruthy videoUrl then
    let st1 := updateVideoResult st videoId
      { status := some "completed", videoUrl := videoUrl,
        thumbnailUrl := some none,
        metadata := some { resolution := some "1080p",
                           format := some "mp4" } }
    let st2 := updateVideoStatus st1 videoId
      { status := some "completed", progress := some 100,
        message := some "Video generation completed successfully" }
    (st2, false)
  else if status = "processing" ∧ attempts < maxAttempts then
    let progress : ℚ := min 95 ((attempts : ℚ) / (maxAttempts : ℚ) * 100)
    (updateVideoStatus st videoId
      { status := some "processing", progress := some progress,
        message := some "Generating video... This may take a few minutes" },
     true)
  else if maxAttempts ≤ attempts then
    (updateVideoStatus st videoId
      { status := some "failed",
        error := some "Video generation timed out" },
     false)
  else
    (st, false)

/-- Body of the `try` block of one poll cycle
(src/server/routes.ts:148-213), with the provider switch on
`lumaStatus.state`. Errors are the thrown messages. -/
def pollCycleTry (videoId model : String) (attempts : Nat)
    (resp : PollResp) (st : MemStorage) :
    Except String (MemStorage × Bool) :=
  if model = "luma" then
    match resp with
    | .error e => .error e
    | .ok lumaStatus =>
        if lumaStatus.state = "completed" then
          .ok (pollTail videoId attempts "completed"
                lumaStatus.videoAsset st)
        else if lumaStatus.state = "failed" then
          .ok (updateVideoStatus st videoId
                { status := some "failed",
                  error := some ((lumaStatus.failureReason).getD
                    "Video generation failed") },
               false)
        else
          .ok (pollTail videoId attempts "processing" none st)
  else
    .error "Pika Labs integration not yet implemented"

/-- One full poll cycle: the `try` body with its `catch`, which converts
any thrown error into a terminal failed status and stops
(src/server/routes.ts:214-220). Storage writes inside the `try` always
precede any throw, so the `catch` sees the entry store. -/
def pollCycle (videoId model : String) (attempts : Nat) (resp : PollResp)
    (st : MemStorage) : MemStorage × Bool :=
  match pollCycleTry videoId model attempts resp st with
  | .ok r => r
  | .error e =>
      (updateVideoStatus st videoId
        { status := some "failed", error := some e },
       false)

/-- The self-rescheduling poll chain starting at a given attempt number
(`attempts++` runs at cycle entry, so the first cycle sees 1). Returns
the final store and the number of cycles that ran. The response list
feeds one provider interaction per cycle. -/
def runPollFrom (videoId model : String) :
    Nat → List PollResp → MemStorage → MemStorage × Nat
  | _, [], st => (st, 0)
  | a, r :: rs, st =>
      let c := pollCycle videoId model a r st
      if c.2 then
        let rest := runPollFrom videoId model (a + 1) rs c.1
        (rest.1, rest.2 + 1)
      else
        (c.1, 1)

/-- `pollVideoStatus`: the background chain from attempt 1. -/
def pollVideoStatus (videoId model : String) (resps : List PollResp)
    (st : MemStorage) : MemStorage × Nat :=
  runPollFrom videoId model 1 resps st

/-- Stores after each poll cycle, in order, for trace invariants. The
chain recurses only while the cycle rescheduled. -/
def chainStores (videoId model : String) :
    Nat → List PollResp → MemStorage → List MemStorage
  | _, [], _ => []
  | a, r :: rs, st =>
      let c := pollCycle videoId model a r st
      c.1 :: (if c.2 then chainStores videoId model (a + 1) rs c.1 else [])

/-- The normalization of provider state vocabulary performed by the
switch in the poll loop (src/server/routes.ts:156-173): everything that
is neither `completed` nor `failed` counts as `processing`. -/
def normalizeLumaState (state : String) : String :=
  if state = "completed" then "completed"
  else if state = "failed" then "failed"
  else "processing"

/-! Projections used to state the claims. -/

/-- Status field of the status record, defaulting to the initial
"pending" when the record is absent. -/
def statusOfD (st : MemStorage) (id : String) : String :=
  ((st.videoStatuses id).map VideoStatus.status).getD "pending"

/-- Progress field of the status record. -/
def progressOf (st : MemStorage) (id : String) : Option ℚ :=
  (st.videoStatuses id).bind VideoStatus.progress

/-- Error field of the status record. -/
def errorOf (st : MemStorage) (id : String) : Option String :=
  (st.videoStatuses id).bind VideoStatus.error

/-- Status field of the job record, defaulting to "pending". -/
def jobStatusOfD (st : MemStorage) (id : String) : String :=
  ((st.videos id).map VideoGenerationResponse.status).getD "pending"

/-- VideoUrl field of the job record. -/
def jobVideoUrlOf (st : MemStorage) (id : String) : Option String :=
  (st.videos id).bind VideoGenerationResponse.videoUrl

/-! The generate endpoint handler (src/server/routes.ts:230-329) and the
provider submission functions it dispatches to. -/

/-- Which provider credentials the environment configures. -/
structure Env where
  hasLumaKey : Bool
  hasGeminiKey : Bool
deriving DecidableEq, Repr

/-- Outcomes of the external calls a submission may perform: the Luma
network request (task id or thrown message) and the Gemini SDK call
(base64 image data or thrown message). -/
structure Oracle where
  lumaSubmitNet : Except String String
  geminiNet : Except String String
deriving Repr

/-- Result shape of a submission: `{ taskId: string; videoUrl?: string }`. -/
structure SubmitResult where
  taskId : String
  videoUrl : Option String := none
deriving DecidableEq, Repr

/-- The message thrown by `generateVideoWithLuma` without a credential. -/
def lumaKeyMissingMsg : String :=
  "Luma API key not configured. Please set LUMA_API_KEY or DREAM_MACHINE_API_KEY environment variable."

/-- The message thrown by `generateVideoWithGemini` without a credential. -/
def geminiKeyMissingMsg : String :=
  "Gemini API key not configured. Please set GEMINI_API_KEY environment variable."

/-- `generateVideoWithLuma` (src/server/routes.ts:13-40): fail fast on a
missing key, otherwise the network call decides. -/
def generateVideoWithLuma (env : Env) (o : Oracle) :
    Except String SubmitResult :=
  if env.hasLumaKey then
    match o.lumaSubmitNet with
    | .error e => .error e
    | .ok taskId => .ok { taskId := taskId }
  else
    .error lumaKeyMissingMsg

/-- `generateVideoWithGemini` (src/server/routes.ts:43-96): fail fast on
a missing key (before the inner `try`, so that message is unwrapped);
inner errors are rethrown wrapped; success returns an immediate data-URL
asset. `ts` stands for `Date.now()`. -/
def generateVideoWithGemini (env : Env) (o : Oracle) (ts : String) :
    Except String SubmitResult :=
  if env.hasGeminiKey then
    match o.geminiNet with
    | .error e => .error ("Gemini generation failed: " ++ e)
    | .ok data =>
        .ok { taskId := "gemini-" ++ ts,
              videoUrl := some ("data:image/jpeg;base64," ++ data) }
  else
    .error geminiKeyMissingMsg

/-- The SVG placeholder text of `generateDemoVideo`
(src/server/routes.ts:104-116), with the prompt truncated at 50
characters; template whitespace is collapsed, which no claim observes. -/
def demoSvg (prompt : String) (duration : Nat) : String :=
  "<svg width=\"1280\" height=\"720\" xmlns=\"http://www.w3.org/2000/svg\">" ++
  "<rect width=\"100%\" height=\"100%\" fill=\"url(#bg)\"/>" ++
  "<text x=\"640\" y=\"300\">AI Video Demo</text>" ++
  "<text x=\"640\" y=\"360\">Prompt: " ++
  (prompt.take 50) ++ (if 50 < prompt.length then "..." else "") ++
  "</text>" ++
  "<text x=\"640\" y=\"420\">Duration: " ++ toString duration ++
  " seconds</text>" ++
  "<text x=\"640\" y=\"480\">This is a demo placeholder. Add API keys for real video generation.</text>" ++
  "</svg>"

/-- The demo data URL. Base64 encoding is modelled as the identity on
the SVG text: every claim looks only at presence and truthiness of the
URL, never at its bytes. -/
def demoVideoUrl (prompt : String) (duration : Nat) : String :=
  "data:image/svg+xml;base64," ++ demoSvg prompt duration

/-- `generateDemoVideo` (src/server/routes.ts:99-121): synthesizes a
placeholder asset immediately, never throws. -/
def generateDemoVideo (prompt : String) (duration : Nat) (ts : String) :
    SubmitResult :=
  { taskId := "demo-" ++ ts, videoUrl := some (demoVideoUrl prompt duration) }

/-- The provider dispatch of the generate handler
(src/server/routes.ts:246-267): Luma with silent fallback to Gemini,
Gemini, demo, and default-to-demo. -/
def trySubmit (env : Env) (o : Oracle) (model prompt : String)
    (duration : Nat) (ts : String) : Except String SubmitResult :=
  if model = "luma" then
    match generateVideoWithLuma env o with
    | .ok lumaResult => .ok { taskId := lumaResult.taskId }
    | .error _ => generateVideoWithGemini env o ts
  else if model = "gemini" then
    generateVideoWithGemini env o ts
  else if model = "demo" then
    .ok (generateDemoVideo prompt duration ts)
  else
    .ok (generateDemoVideo prompt duration ts)

/-- Raw body of `POST /api/videos/generate`. -/
structure GenerateRequest where
  prompt : String
  duration : String
  model : String
deriving DecidableEq, Repr

/-- `videoGenerationRequestSchema.parse` succeeds exactly on these
bodies (prompt length 10-500, duration and model in their enums). -/
def validateRequest (req : GenerateRequest) : Bool :=
  decide (10 ≤ req.prompt.length) && decide (req.prompt.length ≤ 500) &&
  (req.duration == "5" || req.duration == "10") &&
  (req.model == "luma" || req.model == "gemini" || req.model == "demo")

/-- HTTP responses the generate handler can produce: 400 on a
validation error, 200 with a job record, 500 with
`{error, message}` when the submission threw. -/
inductive HandlerResp where
  | validationError
  | json (v : VideoGenerationResponse)
  | genFailed (error : String) (message : String)
deriving DecidableEq, Repr

/-- Outcome of one generate request: the response, the new job id,
whether `pollVideoStatus` was started (and with which task id), and the
stores after each storage mutation in order. -/
structure HandlerResult where
  resp : HandlerResp
  videoId : String
  pollStarted : Bool
  taskId : String
  stores : List MemStorage

/-- The generate endpoint handler (src/server/routes.ts:230-329).
`newId` stands for the `randomUUID()` of the store, `ts` for the
request timestamps. A thrown submission error is recorded as a failed
status and then rethrown to the outer catch, which answers 500
`Generation Failed`; an immediate asset (JS-truthy `result.videoUrl`)
completes both records synchronously and skips polling; otherwise the
status moves to processing and the background poll chain is started. -/
def generateHandler (env : Env) (o : Oracle) (req : GenerateRequest)
    (newId ts : String) (st0 : MemStorage) : HandlerResult :=
  if validateRequest req then
    let duration := (req.duration.toNat?).getD 0
    let created := storeVideoGeneration st0 newId
      { prompt := req.prompt, duration := duration, model := req.model,
        status := "pending", createdAt := ts }
    let video := created.1
    let st1 := created.2
    match trySubmit env o req.model req.prompt duration ts with
    | .error msg =>
        let st2 := updateVideoStatus st1 newId
          { status := some "failed", error := some msg }
        { resp := .genFailed "Generation Failed" msg, videoId := newId,
          pollStarted := false, taskId := "", stores := [st1, st2] }
    | .ok result =>
        if optStrTruthy result.videoUrl then
          let url := (result.videoUrl).getD ""
          let fmt := if req.model = "demo" then "svg" else "jpg"
          let st2 := updateVideoResult st1 newId
            { status := some "completed", videoUrl := some url,
              metadata := some { resolution := some "1080p",
                                 format := some fmt } }
          let st3 := updateVideoStatus st2 newId
            { status := some "completed", progress := some 100,
              message := some "Video generation completed successfully" }
          let respVideo :=
            { video with status := "completed", videoUrl := some url }
          { resp := .json respVideo,
            videoId := newId, pollStarted := false,
            taskId := result.taskId, stores := [st1, st2, st3] }
        else
          let st2 := updateVideoStatus st1 newId
            { status := some "processing", progress := some 10,
              message := some "Video generation started" }
          { resp := .json video, videoId := newId, pollStarted := true,
            taskId := result.taskId, stores := [st1, st2] }
  else
    { resp := .validationError, videoId := newId, pollStarted := false,
      taskId := "", stores := [] }

/-- Every store state the orchestrator produces for one request, in
order: the handler mutations followed, when polling was started, by
one state per poll cycle. -/
def fullTrace (env : Env) (o : Oracle) (req : GenerateRequest)
    (newId ts : String) (st0 : MemStorage) (resps : List PollResp) :
    List MemStorage :=
  let h := generateHandler env o req newId ts st0
  h.stores ++
    (if h.pollStarted then
      chainStores h.videoId req.model 1 resps (h.stores.getLastD st0)
     else [])

/-! Status-transition vocabulary for the forward-only invariant. -/

/-- Rank of a lifecycle status along the forward order
pending before processing before the terminal states. -/
def statusRank : String → Nat
  | "processing" => 1
  | "completed" => 2
  | "failed" => 2
  | _ => 0

/-- The terminal statuses. -/
def isTerminalStatus (s : String) : Bool :=
  s == "completed" || s == "failed"

/-- One admissible move of the status field: never backward in rank, and
out of a terminal status only to itself. -/
def stepOK (s t : String) : Prop :=
  statusRank s ≤ statusRank t ∧ (isTerminalStatus s = true → t = s)

instance (s t : String) : Decidable (stepOK s t) := by
  unfold stepOK; infer_instance

/-! Basic lemmas about the store operations. -/

@[simp]
theorem MapSet_self {α : Type} (m : String → Option α) (k : String)
    (v : α) : MapSet m k v k = some v := by
  simp [MapSet]

theorem MapSet_ne {α : Type} (m : String → Option α) (k j : String)
    (v : α) (h : j ≠ k) : MapSet m k v j = m j := by
  simp [MapSet, h]

@[simp]
theorem videos_updateVideoStatus (st : MemStorage) (id : String)
    (u : StatusUpdate) : (updateVideoStatus st id u).videos = st.videos := by
  unfold updateVideoStatus
  cases st.videoStatuses id <;> rfl

@[simp]
theorem videoStatuses_updateVideoResult (st : MemStorage) (id : String)
    (u : VideoUpdate) :
    (updateVideoResult st id u).videoStatuses = st.videoStatuses := by
  unfold updateVideoResult
  cases st.videos id <;> rfl

theorem getStatus_update_self (st : MemStorage) (id : String)
    (u : StatusUpdate) (cur : VideoStatus)
    (h : st.videoStatuses id = some cur) :
    (updateVideoStatus st id u).videoStatuses id =
      some (mergeStatus cur u) := by
  unfold updateVideoStatus
  rw [h]
  simp

theorem getStatus_update_present (st : MemStorage) (id : String)
    (u : StatusUpdate) (h : (st.videoStatuses id).isSome) :
    ((updateVideoStatus st id u).videoStatuses id).isSome := by
  rcases Option.isSome_iff_exists.mp h with ⟨cur, hcur⟩
  rw [getStatus_update_self st id u cur hcur]
  rfl

theorem getVideo_update_self (st : MemStorage) (id : String)
    (u : VideoUpdate) (cur : VideoGenerationResponse)
    (h : st.videos id = some cur) :
    (updateVideoResult st id u).videos id = some (mergeVideo cur u) := by
  unfold updateVideoResult
  rw [h]
  simp

theorem statusOfD_update (st : MemStorage) (id : String)
    (u : StatusUpdate) (cur : VideoStatus) (s : String)
    (h : st.videoStatuses id = some cur) (hu : u.status = some s) :
    statusOfD (updateVideoStatus st id u) id = s := by
  rw [statusOfD, getStatus_update_self st id u cur h]
  simp [mergeStatus, hu]

theorem errorOf_update (st : MemStorage) (id : String)
    (u : StatusUpdate) (cur : VideoStatus) (e : String)
    (h : st.videoStatuses id = some cur) (hu : u.error = some e) :
    errorOf (updateVideoStatus st id u) id = some e := by
  rw [errorOf, getStatus_update_self st id u cur h]
  simp [mergeStatus, hu, updOpt]

theorem progressOf_update (st : MemStorage) (id : String)
    (u : StatusUpdate) (cur : VideoStatus) (p : ℚ)
    (h : st.videoStatuses id = some cur) (hu : u.progress = some p) :
    progressOf (updateVideoStatus st id u) id = some p := by
  rw [progressOf, getStatus_update_self st id u cur h]
  simp [mergeStatus, hu, updOpt]

/-! Shape lemmas for the poll cycle, one per control-flow outcome. -/

/-- A processing (or queued, or unrecognized) state under the attempt
cap: the cycle writes a processing status with the progress formula
of the source and reschedules. -/
theorem pollCycle_processing (videoId : String) (a : Nat)
    (ls : LumaStatus) (st : MemStorage)
    (h1 : ls.state ≠ "completed") (h2 : ls.state ≠ "failed")
    (ha : a < maxAttempts) :
    pollCycle videoId "luma" a (.ok ls) st =
      (updateVideoStatus st videoId
        { status := some "processing",
          progress := some (min 95 ((a : ℚ) / (maxAttempts : ℚ) * 100)),
          message :=
            some "Generating video... This may take a few minutes" },
       true) := by
  simp [pollCycle, pollCycleTry, pollTail, h1, h2, ha]

/-- A non-terminal state at or past the attempt cap: the cycle writes
the timeout failure and stops. -/
theorem pollCycle_timeout (videoId : String) (a : Nat)
    (ls : LumaStatus) (st : MemStorage)
    (h1 : ls.state ≠ "completed") (h2 : ls.state ≠ "failed")
    (ha : maxAttempts ≤ a) :
    pollCycle videoId "luma" a (.ok ls) st =
      (updateVideoStatus st videoId
        { status := some "failed",
          error := some "Video generation timed out" },
       false) := by
  simp [pollCycle, pollCycleTry, pollTail, h1, h2, ha, Nat.not_lt.mpr ha]

/-- A thrown provider error: the catch writes a failed status carrying
the message and stops. -/
theorem pollCycle_error (videoId : String) (a : Nat) (e : String)
    (st : MemStorage) :
    pollCycle videoId "luma" a (.error e) st =
      (updateVideoStatus st videoId
        { status := some "failed", error := some e },
       false) := by
  simp [pollCycle, pollCycleTry]

/-- A non-luma model: the cycle throws the unimplemented-provider error,
which the catch converts into a failed status. -/
theorem pollCycle_notLuma (videoId model : String) (a : Nat)
    (resp : PollResp) (st : MemStorage) (h : model ≠ "luma") :
    pollCycle videoId model a resp st =
      (updateVideoStatus st videoId
        { status := some "failed",
          error := some "Pika Labs integration not yet implemented" },
       false) := by
  simp [pollCycle, pollCycleTry, h]

/-- A failed provider state: the cycle writes the failure reason (or the
generic message) and stops. -/
theorem pollCycle_failed (videoId : String) (a : Nat) (ls : LumaStatus)
    (st : MemStorage) (h : ls.state = "failed") :
    pollCycle videoId "luma" a (.ok ls) st =
      (updateVideoStatus st videoId
        { status := some "failed",
          error := some ((ls.failureReason).getD
            "Video generation failed") },
       false) := by
  have h1 : ls.state ≠ "completed" := by simp [h]
  simp [pollCycle, pollCycleTry, h, h1]

/-- A completed state with a truthy asset URL: the cycle writes the job
result and the completed status, then stops. -/
theorem pollCycle_completed (videoId : String) (a : Nat)
    (ls : LumaStatus) (st : MemStorage) (h : ls.state = "completed")
    (hurl : optStrTruthy ls.videoAsset = true) :
    pollCycle videoId "luma" a (.ok ls) st =
      (updateVideoStatus
        (updateVideoResult st videoId
          { status := some "completed", videoUrl := ls.videoAsset,
            thumbnailUrl := some none,
            metadata := some { resolution := some "1080p",
                               format := some "mp4" } })
        videoId
        { status := some "completed", progress := some 100,
          message := some "Video generation completed successfully" },
       false) := by
  simp [pollCycle, pollCycleTry, pollTail, h, hurl]

/-- A completed state with no (or empty) asset URL at or past the cap:
the cap branch still fires, writing the timeout failure. -/
theorem pollCycle_completed_noUrl_cap (videoId : String) (a : Nat)
    (ls : LumaStatus) (st : MemStorage) (h : ls.state = "completed")
    (hurl : optStrTruthy ls.videoAsset = false) (ha : maxAttempts ≤ a) :
    pollCycle videoId "luma" a (.ok ls) st =
      (updateVideoStatus st videoId
        { status := some "failed",
          error := some "Video generation timed out" },
       false) := by
  simp [pollCycle, pollCycleTry, pollTail, h, hurl, ha]

/-- A completed state with no (or empty) asset URL, under the cap: the
cycle writes nothing and stops without rescheduling. -/
theorem pollCycle_completed_noUrl (videoId : String) (a : Nat)
    (ls : LumaStatus) (st : MemStorage) (h : ls.state = "completed")
    (hurl : optStrTruthy ls.videoAsset = false) (ha : a < maxAttempts) :
    pollCycle videoId "luma" a (.ok ls) st = (st, false) := by
  simp [pollCycle, pollCycleTry, pollTail, h, hurl, Nat.not_le.mpr ha]

/-! Lemmas about whole poll runs. -/

/-- A provider response observing a non-terminal (queued, processing or
unrecognized) state, without a thrown error. -/
def NonTermResp (r : PollResp) : Prop :=
  ∃ ls : LumaStatus, r = .ok ls ∧ ls.state ≠ "completed" ∧
    ls.state ≠ "failed"

/-- While every response is non-terminal and the attempt counter stays
under the cap, every cycle reschedules: the run consumes all responses,
keeps the record present and leaves it processing. -/
theorem runPollFrom_nonterm_lt (videoId : String) :
    ∀ (resps : List PollResp) (a : Nat) (st : MemStorage),
    (∀ r ∈ resps, NonTermResp r) →
    (st.videoStatuses videoId).isSome →
    a + resps.length ≤ maxAttempts →
    (runPollFrom videoId "luma" a resps st).2 = resps.length ∧
    (((runPollFrom videoId "luma" a resps st).1.videoStatuses videoId).isSome) ∧
    (resps ≠ [] →
      statusOfD (runPollFrom videoId "luma" a resps st).1 videoId =
        "processing")
  | [], a, st => by
      intro _ hp _
      refine ⟨rfl, hp, ?_⟩
      intro h
      exact absurd rfl h
  | r :: rs, a, st => by
      intro hnt hp hlen
      rcases hnt r (by simp) with ⟨ls, rfl, h1, h2⟩
      have ha : a < maxAttempts := by
        simp [List.length_cons] at hlen
        omega
      rw [runPollFrom, pollCycle_processing videoId a ls st h1 h2 ha]
      simp only
      set stNext := updateVideoStatus st videoId
        { status := some "processing",
          progress := some (min 95 ((a : ℚ) / (maxAttempts : ℚ) * 100)),
          message :=
            some "Generating video... This may take a few minutes" } with hstN
      have hpN : (stNext.videoStatuses videoId).isSome :=
        getStatus_update_present st videoId _ hp
      have hsN : statusOfD stNext videoId = "processing" := by
        rcases Option.isSome_iff_exists.mp hp with ⟨cur, hcur⟩
        exact statusOfD_update st videoId _ cur _ hcur rfl
      have hlenN : (a + 1) + rs.length ≤ maxAttempts := by
        simp [List.length_cons] at hlen
        omega
      have ih := runPollFrom_nonterm_lt videoId rs (a + 1) stNext
        (fun r hr => hnt r (by simp [hr])) hpN hlenN
      rcases ih with ⟨ihc, ihp, ihs⟩
      refine ⟨by simp [ihc], ihp, fun _ => ?_⟩
      rcases rs with _ | ⟨r2, rs2⟩
      · simpa [runPollFrom] using hsN
      · exact ihs (by simp)

/-- With the record present, entering at attempt `a ≤ cap` and enough
non-terminal responses to reach the cap, the run performs exactly
`cap + 1 - a` further cycles, ending in the timeout failure. -/
theorem runPollFrom_nonterm_timeout (videoId : String) :
    ∀ (resps : List PollResp) (a : Nat) (st : MemStorage),
    (∀ r ∈ resps, NonTermResp r) →
    (st.videoStatuses videoId).isSome →
    a ≤ maxAttempts →
    maxAttempts + 1 ≤ a + resps.length →
    (runPollFrom videoId "luma" a resps st).2 = maxAttempts + 1 - a ∧
    statusOfD (runPollFrom videoId "luma" a resps st).1 videoId =
      "failed" ∧
    errorOf (runPollFrom videoId "luma" a resps st).1 videoId =
      some "Video generation timed out"
  | [], a, st => by
      intro _ _ ha hlen
      simp at hlen
      omega
  | r :: rs, a, st => by
      intro hnt hp ha hlen
      rcases hnt r (by simp) with ⟨ls, rfl, h1, h2⟩
      rcases Option.isSome_iff_exists.mp hp with ⟨cur, hcur⟩
      by_cases hcap : a < maxAttempts
      · rw [runPollFrom, pollCycle_processing videoId a ls st h1 h2 hcap]
        simp only
        set stNext := updateVideoStatus st videoId
          { status := some "processing",
            progress := some (min 95 ((a : ℚ) / (maxAttempts : ℚ) * 100)),
            message :=
              some "Generating video... This may take a few minutes" }
        have hpN : (stNext.videoStatuses videoId).isSome :=
          getStatus_update_present st videoId _ hp
        have ih := runPollFrom_nonterm_timeout videoId rs (a + 1) stNext
          (fun r hr => hnt r (by simp [hr])) hpN (by omega)
          (by simp [List.length_cons] at hlen; omega)
        rcases ih with ⟨ihc, ihs, ihe⟩
        refine ⟨?_, ihs, ihe⟩
        simp [ihc]
        omega
      · have hge : maxAttempts ≤ a := Nat.not_lt.mp hcap
        have haeq : a = maxAttempts := Nat.le_antisymm ha hge
        rw [runPollFrom, pollCycle_timeout videoId a ls st h1 h2 hge]
        simp only [if_neg (by simp : ¬ (false = true))]
        refine ⟨by omega, ?_, ?_⟩
        · exact statusOfD_update st videoId _ cur _ hcur rfl
        · exact errorOf_update st videoId _ cur _ hcur rfl

/-! The status of the record can only move forward along one poll
cycle, whatever the provider reports. -/

theorem pollCycle_outcome (videoId model : String) (a : Nat)
    (resp : PollResp) (st : MemStorage)
    (hp : (st.videoStatuses videoId).isSome) :
    (((pollCycle videoId model a resp st).1.videoStatuses videoId).isSome) ∧
    ((pollCycle videoId model a resp st).2 = true →
      statusOfD (pollCycle videoId model a resp st).1 videoId =
        "processing") ∧
    (statusOfD (pollCycle videoId model a resp st).1 videoId =
        "processing" ∨
      statusRank
        (statusOfD (pollCycle videoId model a resp st).1 videoId) = 2 ∨
      (pollCycle videoId model a resp st).1 = st) := by
  rcases Option.isSome_iff_exists.mp hp with ⟨cur, hcur⟩
  by_cases hm : model = "luma"
  · subst hm
    rcases resp with e | ls
    · rw [pollCycle_error videoId a e st]
      refine ⟨getStatus_update_present st videoId _ hp, ?_, ?_⟩
      · simp
      · right; left
        rw [statusOfD_update st videoId _ cur _ hcur rfl]
        rfl
    · by_cases hc : ls.state = "completed"
      · by_cases hurl : optStrTruthy ls.videoAsset = true
        · rw [pollCycle_completed videoId a ls st hc hurl]
          have hp2 : (((updateVideoResult st videoId
              { status := some "completed", videoUrl := ls.videoAsset,
                thumbnailUrl := some none,
                metadata := some { resolution := some "1080p",
                                   format := some "mp4" } }).videoStatuses
                videoId).isSome) := by
            rw [videoStatuses_updateVideoResult]
            exact hp
          rcases Option.isSome_iff_exists.mp hp2 with ⟨cur2, hcur2⟩
          refine ⟨getStatus_update_present _ videoId _ hp2, ?_, ?_⟩
          · simp
          · right; left
            rw [statusOfD_update _ videoId _ cur2 _ hcur2 rfl]
            rfl
        · have hurl2 : optStrTruthy ls.videoAsset = false := by
            simpa using hurl
          by_cases hcap : a < maxAttempts
          · rw [pollCycle_completed_noUrl videoId a ls st hc hurl2 hcap]
            exact ⟨hp, by simp, Or.inr (Or.inr rfl)⟩
          · have hge : maxAttempts ≤ a := Nat.not_lt.mp hcap
            rw [pollCycle_completed_noUrl_cap videoId a ls st hc hurl2 hge]
            refine ⟨getStatus_update_present st videoId _ hp, by simp, ?_⟩
            right; left
            rw [statusOfD_update st videoId _ cur _ hcur rfl]
            rfl
      · by_cases hf : ls.state = "failed"
        · rw [pollCycle_failed videoId a ls st hf]
          refine ⟨getStatus_update_present st videoId _ hp, by simp, ?_⟩
          right; left
          rw [statusOfD_update st videoId _ cur _ hcur rfl]
          rfl
        · by_cases hcap : a < maxAttempts
          · rw [pollCycle_processing videoId a ls st hc hf hcap]
            have hs : statusOfD (updateVideoStatus st videoId
                { status := some "processing",
                  progress :=
                    some (min 95 ((a : ℚ) / (maxAttempts : ℚ) * 100)),
                  message :=
                    some "Generating video... This may take a few minutes" })
                  videoId = "processing" :=
              statusOfD_update st videoId _ cur _ hcur rfl
            exact ⟨getStatus_update_present st videoId _ hp,
              fun _ => hs, Or.inl hs⟩
          · have hge : maxAttempts ≤ a := Nat.not_lt.mp hcap
            rw [pollCycle_timeout videoId a ls st hc hf hge]
            refine ⟨getStatus_update_present st videoId _ hp, by simp, ?_⟩
            right; left
            rw [statusOfD_update st videoId _ cur _ hcur rfl]
            rfl
  · rw [pollCycle_notLuma videoId model a resp st hm]
    refine ⟨getStatus_update_present st videoId _ hp, by simp, ?_⟩
    right; left
    rw [statusOfD_update st videoId _ cur _ hcur rfl]
    rfl

/-- From a processing record, every poll chain only walks the status
forward: each consecutive pair of per-cycle states is an admissible
move. -/
theorem chainStores_chain (videoId model : String) :
    ∀ (resps : List PollResp) (a : Nat) (st : MemStorage),
    (st.videoStatuses videoId).isSome →
    statusOfD st videoId = "processing" →
    List.Chain' stepOK
      ((st :: chainStores videoId model a resps st).map
        (fun s => statusOfD s videoId))
  | [], _, st => by
      intro _ _
      simp [chainStores]
  | r :: rs, a, st => by
      intro hp hs
      obtain ⟨hpres, hresched, hcases⟩ :=
        pollCycle_outcome videoId model a r st hp
      rw [chainStores]
      have hstep : stepOK (statusOfD st videoId)
          (statusOfD (pollCycle videoId model a r st).1 videoId) := by
        constructor
        · rw [hs]
          rcases hcases with h | h | h
          · rw [h]
          · rw [h]
            decide
          · rw [h, hs]
        · intro hterm
          rw [hs] at hterm
          exact absurd hterm (by decide)
      cases hc2 : (pollCycle videoId model a r st).2
      · simp only [hc2, if_neg (by simp : ¬ (false = true)), List.map_cons,
          List.map_nil]
        exact List.chain'_cons.mpr ⟨hstep, List.chain'_singleton _⟩
      · have hsN : statusOfD (pollCycle videoId model a r st).1 videoId =
            "processing" := hresched hc2
        have ih := chainStores_chain videoId model rs (a + 1)
          (pollCycle videoId model a r st).1 hpres hsN
        simp only [hc2, if_pos rfl, List.map_cons] at ih ⊢
        exact List.chain'_cons.mpr ⟨hstep, ih⟩

/-! Shape lemmas for the generate handler, one per control path. -/

/-- The job-creation fields the handler passes to the store. -/
def handlerInit (req : GenerateRequest) (ts : String) : VideoInit :=
  { prompt := req.prompt, duration := (req.duration.toNat?).getD 0,
    model := req.model, status := "pending", createdAt := ts }

/-- Store after the job creation performed by the handler. -/
def handlerSt1 (req : GenerateRequest) (newId ts : String)
    (st0 : MemStorage) : MemStorage :=
  (storeVideoGeneration st0 newId (handlerInit req ts)).2

theorem handlerSt1_status_lookup (req : GenerateRequest)
    (newId ts : String) (st0 : MemStorage) :
    (handlerSt1 req newId ts st0).videoStatuses newId =
      some { id := newId, status := "pending", progress := some 0,
             message := some "Video generation started" } := by
  simp [handlerSt1, storeVideoGeneration, handlerInit]

theorem handlerSt1_video_lookup (req : GenerateRequest)
    (newId ts : String) (st0 : MemStorage) :
    (handlerSt1 req newId ts st0).videos newId =
      some { id := newId, status := "pending", prompt := req.prompt,
             duration := (req.duration.toNat?).getD 0, model := req.model,
             createdAt := ts } := by
  simp [handlerSt1, storeVideoGeneration, handlerInit]

/-- An invalid body answers 400 before touching the store. -/
theorem generateHandler_invalid (env : Env) (o : Oracle)
    (req : GenerateRequest) (newId ts : String) (st0 : MemStorage)
    (hv : validateRequest req = false) :
    generateHandler env o req newId ts st0 =
      { resp := .validationError, videoId := newId, pollStarted := false,
        taskId := "", stores := [] } := by
  simp [generateHandler, hv]

/-- A thrown submission: record the failure, answer 500. -/
theorem generateHandler_submitError (env : Env) (o : Oracle)
    (req : GenerateRequest) (newId ts : String) (st0 : MemStorage)
    (msg : String) (hv : validateRequest req = true)
    (hs : trySubmit env o req.model req.prompt
      ((req.duration.toNat?).getD 0) ts = .error msg) :
    generateHandler env o req newId ts st0 =
      { resp := .genFailed "Generation Failed" msg, videoId := newId,
        pollStarted := false, taskId := "",
        stores := [handlerSt1 req newId ts st0,
          updateVideoStatus (handlerSt1 req newId ts st0) newId
            { status := some "failed", error := some msg }] } := by
  simp [generateHandler, hv, hs, handlerSt1, handlerInit]

/-- A submission returning a truthy immediate asset: complete both
records synchronously, answer the completed job, start no polling. -/
theorem generateHandler_syncAsset (env : Env) (o : Oracle)
    (req : GenerateRequest) (newId ts : String) (st0 : MemStorage)
    (result : SubmitResult) (hv : validateRequest req = true)
    (hs : trySubmit env o req.model req.prompt
      ((req.duration.toNat?).getD 0) ts = .ok result)
    (hurl : optStrTruthy result.videoUrl = true) :
    generateHandler env o req newId ts st0 =
      (let url := (result.videoUrl).getD ""
       let st1 := handlerSt1 req newId ts st0
       let fmt := if req.model = "demo" then "svg" else "jpg"
       let st2 := updateVideoResult st1 newId
         { status := some "completed", videoUrl := some url,
           metadata := some { resolution := some "1080p",
                              format := some fmt } }
       let st3 := updateVideoStatus st2 newId
         { status := some "completed", progress := some 100,
           message := some "Video generation completed successfully" }
       let respVid : VideoGenerationResponse :=
         { id := newId, status := "completed", videoUrl := some url,
           prompt := req.prompt,
           duration := (req.duration.toNat?).getD 0, model := req.model,
           createdAt := ts }
       { resp := .json respVid,
         videoId := newId, pollStarted := false, taskId := result.taskId,
         stores := [st1, st2, st3] }) := by
  simp [generateHandler, hv, hs, hurl, handlerSt1, handlerInit,
    storeVideoGeneration]

/-- A submission without an immediate asset: move the status to
processing and start the background poll chain. -/
theorem generateHandler_async (env : Env) (o : Oracle)
    (req : GenerateRequest) (newId ts : String) (st0 : MemStorage)
    (result : SubmitResult) (hv : validateRequest req = true)
    (hs : trySubmit env o req.model req.prompt
      ((req.duration.toNat?).getD 0) ts = .ok result)
    (hurl : optStrTruthy result.videoUrl = false) :
    generateHandler env o req newId ts st0 =
      (let respVid : VideoGenerationResponse :=
         { id := newId, status := "pending", prompt := req.prompt,
           duration := (req.duration.toNat?).getD 0, model := req.model,
           createdAt := ts }
       { resp := .json respVid,
         videoId := newId, pollStarted := true, taskId := result.taskId,
         stores := [handlerSt1 req newId ts st0,
           updateVideoStatus (handlerSt1 req newId ts st0) newId
             { status := some "processing", progress := some 10,
               message := some "Video generation started" }] }) := by
  simp [generateHandler, hv, hs, hurl, handlerSt1, handlerInit,
    storeVideoGeneration]

/-- Initial fields of a sample generate request job. -/
def exInit : VideoInit :=
  { prompt := "a sunset over snowy mountains", duration := 5,
    model := "luma", status := "pending", createdAt := "t0" }

/-- Store with one freshly created job under id "v". -/
def stEx : MemStorage := (storeVideoGeneration emptyStore "v" exInit).2

/-- The same store after the handler moved it to processing. -/
def stProc : MemStorage :=
  updateVideoStatus stEx "v"
    { status := some "processing", progress := some 10,
      message := some "Video generation started" }

/-- Provider response reporting a still-processing job. -/
def procResp : PollResp := .ok { state := "processing" }

/-- Provider response reporting completion without any asset URL. -/
def compNoUrlResp : PollResp := .ok { state := "completed" }

/-- The status record stProc holds under "v". -/
theorem stProc_lookup : stProc.videoStatuses "v" =
    some { id := "v", status := "processing", progress := some 10,
           message := some "Video generation started", error := none } := by
  rfl

example : statusOfD stProc "v" = "processing" := rfl
example : (pollCycle "v" "luma" 1 procResp stProc).2 = true := rfl
example : progressOf (pollCycle "v" "luma" 1 procResp stProc).1 "v" =
    some (5/3) := by
  rw [show procResp = .ok { state := "processing" } from rfl,
    pollCycle_processing "v" 1 _ stProc (by decide) (by decide) (by decide)]
  rw [progressOf_update stProc "v" _ _ _ stProc_lookup rfl]
  norm_num [maxAttempts]
example : pollCycle "v" "luma" 1 compNoUrlResp stProc = (stProc, false) := rfl
example : (pollVideoStatus "v" "luma" (List.replicate 60 procResp) stProc).2 =
    60 := rfl
example : statusOfD (pollVideoStatus "v" "luma"
    (List.replicate 60 procResp) stProc).1 "v" = "failed" := rfl

/-! Further helper lemmas for the handler claims. -/

theorem append_ne_empty_of_left (a b : String) (h : a.length ≠ 0) :
    a ++ b ≠ "" := by
  intro he
  have hlen := congrArg String.length he
  rw [String.length_append] at hlen
  simp at hlen
  omega

theorem demoVideoUrl_ne_empty (p : String) (d : Nat) :
    demoVideoUrl p d ≠ "" :=
  append_ne_empty_of_left _ _ (by decide)

theorem geminiUrl_ne_empty (data : String) :
    ("data:image/jpeg;base64," ++ data : String) ≠ "" :=
  append_ne_empty_of_left _ _ (by decide)

theorem optStrTruthy_some_of_ne (s : String) (h : s ≠ "") :
    optStrTruthy (some s) = true := by
  simp [optStrTruthy, h]

theorem jobStatusOfD_updateResult (st : MemStorage) (id : String)
    (u : VideoUpdate) (cur : VideoGenerationResponse) (s : String)
    (h : st.videos id = some cur) (hu : u.status = some s) :
    jobStatusOfD (updateVideoResult st id u) id = s := by
  rw [jobStatusOfD, getVideo_update_self st id u cur h]
  simp [mergeVideo, hu]

theorem jobVideoUrlOf_updateResult (st : MemStorage) (id : String)
    (u : VideoUpdate) (cur : VideoGenerationResponse) (url : String)
    (h : st.videos id = some cur) (hu : u.videoUrl = some url) :
    jobVideoUrlOf (updateVideoResult st id u) id = some url := by
  rw [jobVideoUrlOf, getVideo_update_self st id u cur h]
  simp [mergeVideo, hu, updOpt]

theorem jobStatusOfD_updateStatus (st : MemStorage) (id j : String)
    (u : StatusUpdate) :
    jobStatusOfD (updateVideoStatus st id u) j = jobStatusOfD st j := by
  rw [jobStatusOfD, videos_updateVideoStatus]
  rfl

theorem jobVideoUrlOf_updateStatus (st : MemStorage) (id j : String)
    (u : StatusUpdate) :
    jobVideoUrlOf (updateVideoStatus st id u) j = jobVideoUrlOf st j := by
  rw [jobVideoUrlOf, videos_updateVideoStatus]
  rfl

theorem getLastD_two {A : Type} (a b d : A) :
    ([a, b] : List A).getLastD d = b := rfl

theorem getLastD_three {A : Type} (a b c d : A) :
    ([a, b, c] : List A).getLastD d = c := rfl

/-- Common conclusion of the synchronous-asset path: once the submission
returned a truthy immediate asset, the handler completes both records
and answers the completed job without starting any poll. -/
theorem handler_sync_conclusion (env : Env) (o : Oracle)
    (req : GenerateRequest) (newId ts : String) (st0 : MemStorage)
    (result : SubmitResult) (url : String)
    (hv : validateRequest req = true)
    (hsub : trySubmit env o req.model req.prompt
      ((req.duration.toNat?).getD 0) ts = .ok result)
    (hres : result.videoUrl = some url) (hne : url ≠ "") :
    (generateHandler env o req newId ts st0).resp = .json
      { id := newId, status := "completed", videoUrl := some url,
        prompt := req.prompt,
        duration := (req.duration.toNat?).getD 0, model := req.model,
        createdAt := ts } ∧
    jobStatusOfD
      ((generateHandler env o req newId ts st0).stores.getLastD st0)
      newId = "completed" ∧
    jobVideoUrlOf
      ((generateHandler env o req newId ts st0).stores.getLastD st0)
      newId = some url ∧
    statusOfD
      ((generateHandler env o req newId ts st0).stores.getLastD st0)
      newId = "completed" ∧
    progressOf
      ((generateHandler env o req newId ts st0).stores.getLastD st0)
      newId = some 100 ∧
    (generateHandler env o req newId ts st0).pollStarted = false := by
  have hurl : optStrTruthy result.videoUrl = true := by
    rw [hres]
    exact optStrTruthy_some_of_ne url hne
  rw [generateHandler_syncAsset env o req newId ts st0 result hv hsub hurl]
  simp only [hres, Option.getD_some, getLastD_three]
  refine ⟨trivial, ?_, ?_, ?_, ?_, trivial⟩
  · rw [jobStatusOfD_updateStatus]
    exact jobStatusOfD_updateResult _ newId _ _ _
      (handlerSt1_video_lookup req newId ts st0) rfl
  · rw [jobVideoUrlOf_updateStatus]
    exact jobVideoUrlOf_updateResult _ newId _ _ _
      (handlerSt1_video_lookup req newId ts st0) rfl
  · refine statusOfD_update _ newId _
      { id := newId, status := "pending", progress := some 0,
        message := some "Video generation started" } _ ?_ rfl
    rw [videoStatuses_updateVideoResult]
    exact handlerSt1_status_lookup req newId ts st0
  · refine progressOf_update _ newId _
      { id := newId, status := "pending", progress := some 0,
        message := some "Video generation started" } _ ?_ rfl
    rw [videoStatuses_updateVideoResult]
    exact handlerSt1_status_lookup req newId ts st0

/-- Environment with no provider credential configured. -/
def envNone : Env := { hasLumaKey := false, hasGeminiKey := false }

/-- Oracle whose network calls would all fail (never reached when the
credential check fails first, or when the demo provider is used). -/
def oracleFail : Oracle :=
  { lumaSubmitNet := .error "netdown", geminiNet := .error "netdown" }

/-- A valid generate request selecting the gemini provider. -/
def reqGemini : GenerateRequest :=
  { prompt := "a sunset over snowy mountains", duration := "5",
    model := "gemini" }

/-- A valid generate request selecting the demo provider. -/
def reqDemo : GenerateRequest :=
  { prompt := "a sunset over snowy mountains", duration := "5",
    model := "demo" }

/-! Claim theorems. -/

/-- C9: for an identifier absent from the store, both update operations
return without raising (they are total functions here) and leave the
whole store, both maps included, unchanged. -/
theorem updates_unknown_id_noop (st : MemStorage) (id : String)
    (u1 : StatusUpdate) (u2 : VideoUpdate)
    (h1 : st.videoStatuses id = none) (h2 : st.videos id = none) :
    updateVideoStatus st id u1 = st ∧ updateVideoResult st id u2 = st := by
  constructor
  · unfold updateVideoStatus
    rw [h1]
  · unfold updateVideoResult
    rw [h2]

/-- Witness for C9 at a concrete absent identifier. -/
theorem updates_unknown_id_noop_witness :
    emptyStore.videoStatuses "missing" = none ∧
    emptyStore.videos "missing" = none ∧
    (updateVideoStatus emptyStore "missing" { status := some "failed" } =
        emptyStore ∧
      updateVideoResult emptyStore "missing" { status := some "completed" } =
        emptyStore) :=
  ⟨rfl, rfl,
   updates_unknown_id_noop emptyStore "missing"
     { status := some "failed" } { status := some "completed" } rfl rfl⟩

/-- C1 counterexample: at attempt 1 the cycle stores progress 5/3,
while the claimed value min(95, floor(1/60*100)) is 1 — the source
computes `Math.min(95, (attempts / maxAttempts) * 100)` without any
flooring. The floor is taken as integer division of naturals. -/
theorem progress_not_floored_cex :
    progressOf (pollCycle "v" "luma" 1 procResp stProc).1 "v" =
      some (5/3) ∧
    progressOf (pollCycle "v" "luma" 1 procResp stProc).1 "v" ≠
      some ((min 95 ((1 * 100) / 60 : ℕ) : ℕ) : ℚ) := by
  have hval : progressOf (pollCycle "v" "luma" 1 procResp stProc).1 "v" =
      some (5/3) := by
    rw [show procResp = .ok { state := "processing" } from rfl,
      pollCycle_processing "v" 1 _ stProc (by decide) (by decide)
        (by decide)]
    rw [progressOf_update stProc "v" _ _ _ stProc_lookup rfl]
    norm_num [maxAttempts]
  refine ⟨hval, ?_⟩
  rw [hval]
  norm_num

/-- C1 (amended): for every poll cycle observing a non-terminal provider
state with attempt count a (1 ≤ a, under the cap m = 60), the progress
written to the status record is the exact, unfloored
min(95, a / m * 100); the cycle then reschedules. -/
theorem poll_progress_formula (videoId : String) (a : Nat)
    (ls : LumaStatus) (st : MemStorage) (cur : VideoStatus)
    (hcur : st.videoStatuses videoId = some cur)
    (h1 : ls.state ≠ "completed") (h2 : ls.state ≠ "failed")
    (_hlo : 1 ≤ a) (hhi : a < maxAttempts) :
    progressOf (pollCycle videoId "luma" a (.ok ls) st).1 videoId =
      some (min 95 ((a : ℚ) / (maxAttempts : ℚ) * 100)) ∧
    (pollCycle videoId "luma" a (.ok ls) st).2 = true := by
  rw [pollCycle_processing videoId a ls st h1 h2 hhi]
  exact ⟨progressOf_update st videoId _ cur _ hcur rfl, rfl⟩

/-- Witness for the amended C1 at attempt 1 on a queued state. -/
theorem poll_progress_formula_witness :
    stProc.videoStatuses "v" =
      some { id := "v", status := "processing", progress := some 10,
             message := some "Video generation started" } ∧
    (1 ≤ 1 ∧ 1 < maxAttempts) ∧
    (progressOf
        (pollCycle "v" "luma" 1 (.ok { state := "queued" }) stProc).1
        "v" =
      some (min 95 ((1 : ℚ) / (maxAttempts : ℚ) * 100)) ∧
     (pollCycle "v" "luma" 1 (.ok { state := "queued" }) stProc).2 =
      true) :=
  ⟨rfl, ⟨le_refl 1, by decide⟩,
   poll_progress_formula "v" 1 { state := "queued" } stProc _ rfl
     (by decide) (by decide) (le_refl 1) (by decide)⟩

/-- C2: over any all-non-terminal response sequence, the poll chain runs
exactly maxAttempts = 60 cycles when at least that many responses are
available, ending with the timeout failure written to the status record
and no further cycle; with fewer than 60 responses it consumes exactly
those and is still processing, never the timeout. -/
theorem poll_timeout_exactly_at_cap (videoId : String) (st : MemStorage)
    (resps : List PollResp)
    (hp : (st.videoStatuses videoId).isSome)
    (hnt : ∀ r ∈ resps, NonTermResp r) :
    (maxAttempts ≤ resps.length →
      (pollVideoStatus videoId "luma" resps st).2 = maxAttempts ∧
      statusOfD (pollVideoStatus videoId "luma" resps st).1 videoId =
        "failed" ∧
      errorOf (pollVideoStatus videoId "luma" resps st).1 videoId =
        some "Video generation timed out") ∧
    (resps.length < maxAttempts →
      (pollVideoStatus videoId "luma" resps st).2 = resps.length ∧
      (resps ≠ [] →
        statusOfD (pollVideoStatus videoId "luma" resps st).1 videoId =
          "processing")) := by
  constructor
  · intro hlen
    obtain ⟨hc, hs, he⟩ := runPollFrom_nonterm_timeout videoId resps 1 st
      hnt hp (by decide) (by omega)
    rw [pollVideoStatus]
    refine ⟨?_, hs, he⟩
    rw [hc]
    omega
  · intro hlen
    obtain ⟨hc, _, hs⟩ := runPollFrom_nonterm_lt videoId resps 1 st
      hnt hp (by omega)
    rw [pollVideoStatus]
    exact ⟨hc, hs⟩

/-- Witness for C2 with 60 always-processing responses. -/
theorem poll_timeout_exactly_at_cap_witness :
    (stProc.videoStatuses "v").isSome ∧
    NonTermResp procResp ∧
    statusOfD (pollVideoStatus "v" "luma"
        (List.replicate 60 procResp) stProc).1 "v" = "failed" ∧
    errorOf (pollVideoStatus "v" "luma"
        (List.replicate 60 procResp) stProc).1 "v" =
      some "Video generation timed out" ∧
    (pollVideoStatus "v" "luma"
        (List.replicate 60 procResp) stProc).2 = maxAttempts :=
  ⟨rfl, ⟨{ state := "processing" }, rfl, by decide, by decide⟩,
   ((poll_timeout_exactly_at_cap "v" stProc (List.replicate 60 procResp)
       rfl (fun r hr => by
         rw [List.eq_of_mem_replicate hr]
         exact ⟨{ state := "processing" }, rfl, by decide, by decide⟩)).1
     (by simp [maxAttempts])).2.1,
   ((poll_timeout_exactly_at_cap "v" stProc (List.replicate 60 procResp)
       rfl (fun r hr => by
         rw [List.eq_of_mem_replicate hr]
         exact ⟨{ state := "processing" }, rfl, by decide, by decide⟩)).1
     (by simp [maxAttempts])).2.2,
   ((poll_timeout_exactly_at_cap "v" stProc (List.replicate 60 procResp)
       rfl (fun r hr => by
         rw [List.eq_of_mem_replicate hr]
         exact ⟨{ state := "processing" }, rfl, by decide, by decide⟩)).1
     (by simp [maxAttempts])).1⟩

/-- C3: at attempt 1 (inside the cap), a provider response reporting
state completed with no asset URL makes the cycle write nothing and
stop rescheduling, leaving the status record still at processing — the
chain can end without a terminal status in the record. -/
theorem completed_without_url_stalls :
    pollCycle "v" "luma" 1 compNoUrlResp stProc = (stProc, false) ∧
    statusOfD stProc "v" = "processing" ∧
    1 < maxAttempts :=
  ⟨rfl, rfl, by decide⟩

/-- C4: a thrown provider-call error in a luma poll cycle is caught at
the cycle boundary: the cycle returns normally (nothing is re-raised:
pollCycle is total), writes a failed status carrying the thrown message
and does not reschedule; for any non-luma model the
unimplemented-provider throw of the cycle itself is absorbed the same
way. -/
theorem poll_error_caught (videoId model : String) (a : Nat) (e : String)
    (resp : PollResp) (st : MemStorage) (cur : VideoStatus)
    (hcur : st.videoStatuses videoId = some cur) :
    ((pollCycle videoId "luma" a (.error e) st).2 = false ∧
     statusOfD (pollCycle videoId "luma" a (.error e) st).1 videoId =
       "failed" ∧
     errorOf (pollCycle videoId "luma" a (.error e) st).1 videoId =
       some e) ∧
    (model ≠ "luma" →
      (pollCycle videoId model a resp st).2 = false ∧
      statusOfD (pollCycle videoId model a resp st).1 videoId =
        "failed" ∧
      errorOf (pollCycle videoId model a resp st).1 videoId =
        some "Pika Labs integration not yet implemented") := by
  constructor
  · rw [pollCycle_error videoId a e st]
    exact ⟨rfl, statusOfD_update st videoId _ cur _ hcur rfl,
      errorOf_update st videoId _ cur _ hcur rfl⟩
  · intro hm
    rw [pollCycle_notLuma videoId model a resp st hm]
    exact ⟨rfl, statusOfD_update st videoId _ cur _ hcur rfl,
      errorOf_update st videoId _ cur _ hcur rfl⟩

/-- Witness for C4: a concrete network error, and a non-luma model. -/
theorem poll_error_caught_witness :
    stProc.videoStatuses "v" =
      some { id := "v", status := "processing", progress := some 10,
             message := some "Video generation started" } ∧
    errorOf (pollCycle "v" "luma" 3 (.error "network down") stProc).1
      "v" = some "network down" ∧
    statusOfD (pollCycle "v" "luma" 3 (.error "network down") stProc).1
      "v" = "failed" ∧
    errorOf (pollCycle "v" "pika" 3 procResp stProc).1 "v" =
      some "Pika Labs integration not yet implemented" :=
  ⟨rfl,
   (poll_error_caught "v" "pika" 3 "network down" procResp stProc _
     rfl).1.2.2,
   (poll_error_caught "v" "pika" 3 "network down" procResp stProc _
     rfl).1.2.1,
   ((poll_error_caught "v" "pika" 3 "network down" procResp stProc _
     rfl).2 (by decide)).2.2⟩

/-- C8: a provider state that is neither completed nor failed is
normalized to processing and the cycle keeps the job in flight: it
writes a processing status and reschedules (under the cap). -/
theorem unrecognized_state_stays_processing (videoId : String) (a : Nat)
    (ls : LumaStatus) (st : MemStorage) (cur : VideoStatus)
    (hcur : st.videoStatuses videoId = some cur)
    (h1 : ls.state ≠ "completed") (h2 : ls.state ≠ "failed")
    (ha : a < maxAttempts) :
    normalizeLumaState ls.state = "processing" ∧
    statusOfD (pollCycle videoId "luma" a (.ok ls) st).1 videoId =
      "processing" ∧
    (pollCycle videoId "luma" a (.ok ls) st).2 = true := by
  refine ⟨?_, ?_, ?_⟩
  · simp [normalizeLumaState, h1, h2]
  · rw [pollCycle_processing videoId a ls st h1 h2 ha]
    exact statusOfD_update st videoId _ cur _ hcur rfl
  · rw [pollCycle_processing videoId a ls st h1 h2 ha]

/-- Witness for C8 at the unrecognized state "rendering". -/
theorem unrecognized_state_stays_processing_witness :
    stProc.videoStatuses "v" =
      some { id := "v", status := "processing", progress := some 10,
             message := some "Video generation started" } ∧
    normalizeLumaState "rendering" = "processing" ∧
    statusOfD
      (pollCycle "v" "luma" 2 (.ok { state := "rendering" }) stProc).1
      "v" = "processing" ∧
    (pollCycle "v" "luma" 2 (.ok { state := "rendering" }) stProc).2 =
      true :=
  ⟨rfl,
   (unrecognized_state_stays_processing "v" 2 { state := "rendering" }
     stProc _ rfl (by decide) (by decide) (by decide)).1,
   (unrecognized_state_stays_processing "v" 2 { state := "rendering" }
     stProc _ rfl (by decide) (by decide) (by decide)).2.1,
   (unrecognized_state_stays_processing "v" 2 { state := "rendering" }
     stProc _ rfl (by decide) (by decide) (by decide)).2.2⟩

/-- C6: a valid generate request for gemini without the GEMINI_API_KEY
credential answers 500 with body error "Generation Failed" and the
thrown message, records the failure under the id of the same request in the
stored status record (status failed, error naming GEMINI_API_KEY, as
the append decomposition shows), and starts no polling — recorded and
surfaced in the same request/response cycle. -/
theorem missing_credential_500 (env : Env) (o : Oracle)
    (req : GenerateRequest) (newId ts : String) (st0 : MemStorage)
    (hv : validateRequest req = true) (hm : req.model = "gemini")
    (hk : env.hasGeminiKey = false) :
    (generateHandler env o req newId ts st0).resp =
      .genFailed "Generation Failed" geminiKeyMissingMsg ∧
    statusOfD
      ((generateHandler env o req newId ts st0).stores.getLastD st0)
      newId = "failed" ∧
    errorOf
      ((generateHandler env o req newId ts st0).stores.getLastD st0)
      newId = some geminiKeyMissingMsg ∧
    (generateHandler env o req newId ts st0).pollStarted = false ∧
    geminiKeyMissingMsg =
      "Gemini API key not configured. Please set " ++ "GEMINI_API_KEY" ++
        " environment variable." := by
  have hsub : trySubmit env o req.model req.prompt
      ((req.duration.toNat?).getD 0) ts = .error geminiKeyMissingMsg := by
    rw [hm]
    simp [trySubmit, generateVideoWithGemini, hk]
  rw [generateHandler_submitError env o req newId ts st0 _ hv hsub]
  simp only [getLastD_two]
  refine ⟨trivial, ?_, ?_, trivial, rfl⟩
  · exact statusOfD_update _ newId _
      { id := newId, status := "pending", progress := some 0,
        message := some "Video generation started" } _
      (handlerSt1_status_lookup req newId ts st0) rfl
  · exact errorOf_update _ newId _
      { id := newId, status := "pending", progress := some 0,
        message := some "Video generation started" } _
      (handlerSt1_status_lookup req newId ts st0) rfl

/-- Witness for C6: the concrete keyless environment and gemini
request. -/
theorem missing_credential_500_witness :
    validateRequest reqGemini = true ∧
    reqGemini.model = "gemini" ∧
    envNone.hasGeminiKey = false ∧
    ((generateHandler envNone oracleFail reqGemini "v1" "t0"
        emptyStore).resp =
      .genFailed "Generation Failed" geminiKeyMissingMsg ∧
     statusOfD ((generateHandler envNone oracleFail reqGemini "v1" "t0"
        emptyStore).stores.getLastD emptyStore) "v1" = "failed" ∧
     errorOf ((generateHandler envNone oracleFail reqGemini "v1" "t0"
        emptyStore).stores.getLastD emptyStore) "v1" =
      some geminiKeyMissingMsg) := by
  obtain ⟨h1, h2, h3, _, _⟩ := missing_credential_500 envNone oracleFail
    reqGemini "v1" "t0" emptyStore (by decide) rfl rfl
  exact ⟨by decide, rfl, rfl, h1, h2, h3⟩

/-- C7: a valid generate request against a synchronous provider (demo,
or gemini whose call succeeds) answers the job as completed with a
nonempty videoUrl in the same response, writes the job record to
completed with that videoUrl and the status record to completed with
progress 100, and never starts the background poll. -/
theorem sync_provider_completes (env : Env) (o : Oracle)
    (req : GenerateRequest) (newId ts : String) (st0 : MemStorage)
    (hv : validateRequest req = true)
    (hsync : req.model = "demo" ∨
      (req.model = "gemini" ∧ env.hasGeminiKey = true ∧
        ∃ d, o.geminiNet = .ok d)) :
    ∃ url : String, url ≠ "" ∧
      (generateHandler env o req newId ts st0).resp = .json
        { id := newId, status := "completed", videoUrl := some url,
          prompt := req.prompt,
          duration := (req.duration.toNat?).getD 0, model := req.model,
          createdAt := ts } ∧
      jobStatusOfD
        ((generateHandler env o req newId ts st0).stores.getLastD st0)
        newId = "completed" ∧
      jobVideoUrlOf
        ((generateHandler env o req newId ts st0).stores.getLastD st0)
        newId = some url ∧
      statusOfD
        ((generateHandler env o req newId ts st0).stores.getLastD st0)
        newId = "completed" ∧
      progressOf
        ((generateHandler env o req newId ts st0).stores.getLastD st0)
        newId = some 100 ∧
      (generateHandler env o req newId ts st0).pollStarted = false := by
  rcases hsync with hm | ⟨hm, hk, d, hd⟩
  · refine ⟨demoVideoUrl req.prompt ((req.duration.toNat?).getD 0),
      demoVideoUrl_ne_empty _ _, ?_⟩
    have hsub : trySubmit env o req.model req.prompt
        ((req.duration.toNat?).getD 0) ts =
        .ok (generateDemoVideo req.prompt
          ((req.duration.toNat?).getD 0) ts) := by
      rw [hm]
      simp [trySubmit]
    exact handler_sync_conclusion env o req newId ts st0 _ _ hv hsub rfl
      (demoVideoUrl_ne_empty _ _)
  · refine ⟨"data:image/jpeg;base64," ++ d, geminiUrl_ne_empty d, ?_⟩
    have hsub : trySubmit env o req.model req.prompt
        ((req.duration.toNat?).getD 0) ts =
        .ok { taskId := "gemini-" ++ ts,
              videoUrl := some ("data:image/jpeg;base64," ++ d) } := by
      rw [hm]
      simp [trySubmit, generateVideoWithGemini, hk, hd]
    exact handler_sync_conclusion env o req newId ts st0 _ _ hv hsub rfl
      (geminiUrl_ne_empty d)

/-- Witness for C7: the concrete demo request. -/
theorem sync_provider_completes_witness :
    validateRequest reqDemo = true ∧
    reqDemo.model = "demo" ∧
    statusOfD ((generateHandler envNone oracleFail reqDemo "v2" "t0"
        emptyStore).stores.getLastD emptyStore) "v2" = "completed" ∧
    progressOf ((generateHandler envNone oracleFail reqDemo "v2" "t0"
        emptyStore).stores.getLastD emptyStore) "v2" = some 100 ∧
    jobStatusOfD ((generateHandler envNone oracleFail reqDemo "v2" "t0"
        emptyStore).stores.getLastD emptyStore) "v2" = "completed" ∧
    (jobVideoUrlOf ((generateHandler envNone oracleFail reqDemo "v2" "t0"
        emptyStore).stores.getLastD emptyStore) "v2").isSome = true ∧
    (generateHandler envNone oracleFail reqDemo "v2" "t0"
        emptyStore).pollStarted = false := by
  obtain ⟨url, _, _, hjob, hurl, hstat, hprog, hpoll⟩ :=
    sync_provider_completes envNone oracleFail reqDemo "v2" "t0"
      emptyStore (by decide) (Or.inl rfl)
  refine ⟨by decide, rfl, hstat, hprog, hjob, ?_, hpoll⟩
  rw [hurl]
  rfl

/-! Remaining helper lemmas for the trace claims. -/

theorem statusOfD_handlerSt1 (req : GenerateRequest) (newId ts : String)
    (st0 : MemStorage) :
    statusOfD (handlerSt1 req newId ts st0) newId = "pending" := by
  rw [statusOfD, handlerSt1_status_lookup]
  rfl

theorem statusOfD_updateResult (st : MemStorage) (id j : String)
    (u : VideoUpdate) :
    statusOfD (updateVideoResult st id u) j = statusOfD st j := by
  rw [statusOfD, videoStatuses_updateVideoResult]
  rfl

/-- From the initial pending status every move is admissible: pending
has the lowest rank and is not terminal. -/
theorem stepOK_pending (t : String) : stepOK "pending" t :=
  ⟨Nat.zero_le _, by intro h; exact absurd h (by decide)⟩

/-- C5: over every orchestrator execution of one request — handler
mutations followed by any poll chain over any provider responses — the
status stored in the status record only moves forward: ranks never decrease and a
terminal status is never left. -/
theorem status_moves_forward (env : Env) (o : Oracle)
    (req : GenerateRequest) (newId ts : String) (st0 : MemStorage)
    (resps : List PollResp) :
    List.Chain' stepOK
      ((fullTrace env o req newId ts st0 resps).map
        (fun s => statusOfD s newId)) := by
  by_cases hv : validateRequest req = true
  · rcases hsub : trySubmit env o req.model req.prompt
        ((req.duration.toNat?).getD 0) ts with msg | result
    · rw [fullTrace, generateHandler_submitError env o req newId ts st0
        msg hv hsub]
      simp only [List.map_cons, List.map_nil, Bool.false_eq_true,
        if_neg, List.append_nil]
      refine List.chain'_cons.mpr ⟨?_, List.chain'_singleton _⟩
      beta_reduce
      rw [statusOfD_handlerSt1]
      exact stepOK_pending _
    · by_cases hurl : optStrTruthy result.videoUrl = true
      · rw [fullTrace, generateHandler_syncAsset env o req newId ts st0
          result hv hsub hurl]
        simp only [List.map_cons, List.map_nil, Bool.false_eq_true,
          if_neg, List.append_nil]
        refine List.chain'_cons.mpr ⟨?_, List.chain'_cons.mpr
          ⟨?_, List.chain'_singleton _⟩⟩
        · beta_reduce
          rw [statusOfD_handlerSt1]
          exact stepOK_pending _
        · beta_reduce
          rw [statusOfD_updateResult, statusOfD_handlerSt1]
          exact stepOK_pending _
      · have hurl2 : optStrTruthy result.videoUrl = false := by
          simpa using hurl
        rw [fullTrace, generateHandler_async env o req newId ts st0
          result hv hsub hurl2]
        simp only [if_pos, getLastD_two, List.cons_append,
          List.nil_append, List.map_cons]
        have hs2 : statusOfD (updateVideoStatus
            (handlerSt1 req newId ts st0) newId
            { status := some "processing", progress := some 10,
              message := some "Video generation started" }) newId =
            "processing" :=
          statusOfD_update _ newId _
            { id := newId, status := "pending", progress := some 0,
              message := some "Video generation started" } _
            (handlerSt1_status_lookup req newId ts st0) rfl
        have hp2 : ((updateVideoStatus (handlerSt1 req newId ts st0)
            newId
            { status := some "processing", progress := some 10,
              message := some "Video generation started" }).videoStatuses
            newId).isSome :=
          getStatus_update_present _ newId _
            (by rw [handlerSt1_status_lookup]; rfl)
        have hchain := chainStores_chain newId req.model resps 1 _
          hp2 hs2
        simp only [List.map_cons] at hchain
        refine List.chain'_cons.mpr ⟨?_, hchain⟩
        beta_reduce
        rw [statusOfD_handlerSt1]
        exact stepOK_pending _
  · rw [fullTrace, generateHandler_invalid env o req newId ts st0
      (by simpa using hv)]
    simp

/-! Invariant of the status field held on the job record itself (claim C10). -/

/-- Every job record in the store carries only "pending" or
"completed" in its own status field. -/
def JobStatusInv (st : MemStorage) : Prop :=
  ∀ id v, st.videos id = some v →
    v.status = "pending" ∨ v.status = "completed"

theorem jobInv_updateVideoStatus (st : MemStorage) (id : String)
    (u : StatusUpdate) (h : JobStatusInv st) :
    JobStatusInv (updateVideoStatus st id u) := by
  intro j v hv
  rw [videos_updateVideoStatus] at hv
  exact h j v hv

theorem jobInv_storeVideoGeneration (st : MemStorage) (newId : String)
    (init : VideoInit) (hi : init.status = "pending")
    (h : JobStatusInv st) :
    JobStatusInv (storeVideoGeneration st newId init).2 := by
  intro j v hv
  rw [storeVideoGeneration] at hv
  simp only [MapSet] at hv
  by_cases hj : j = newId
  · rw [if_pos hj] at hv
    cases hv
    left
    exact hi
  · rw [if_neg hj] at hv
    exact h j v hv

theorem jobInv_updateVideoResult (st : MemStorage) (id : String)
    (u : VideoUpdate) (hu : u.status = some "completed")
    (h : JobStatusInv st) :
    JobStatusInv (updateVideoResult st id u) := by
  intro j v hv
  rw [updateVideoResult] at hv
  cases hcur : st.videos id with
  | none =>
      rw [hcur] at hv
      exact h j v hv
  | some cur =>
      rw [hcur] at hv
      simp only [MapSet] at hv
      by_cases hj : j = id
      · rw [if_pos hj] at hv
        cases hv
        right
        simp [mergeVideo, hu]
      · rw [if_neg hj] at hv
        exact h j v hv

theorem pollCycle_jobInv (videoId model : String) (a : Nat)
    (resp : PollResp) (st : MemStorage) (h : JobStatusInv st) :
    JobStatusInv (pollCycle videoId model a resp st).1 := by
  by_cases hm : model = "luma"
  · subst hm
    rcases resp with e | ls
    · rw [pollCycle_error videoId a e st]
      exact jobInv_updateVideoStatus st videoId _ h
    · by_cases hc : ls.state = "completed"
      · by_cases hurl : optStrTruthy ls.videoAsset = true
        · rw [pollCycle_completed videoId a ls st hc hurl]
          exact jobInv_updateVideoStatus _ videoId _
            (jobInv_updateVideoResult st videoId _ rfl h)
        · have hurl2 : optStrTruthy ls.videoAsset = false := by
            simpa using hurl
          by_cases hcap : a < maxAttempts
          · rw [pollCycle_completed_noUrl videoId a ls st hc hurl2 hcap]
            exact h
          · rw [pollCycle_completed_noUrl_cap videoId a ls st hc hurl2
              (Nat.not_lt.mp hcap)]
            exact jobInv_updateVideoStatus st videoId _ h
      · by_cases hf : ls.state = "failed"
        · rw [pollCycle_failed videoId a ls st hf]
          exact jobInv_updateVideoStatus st videoId _ h
        · by_cases hcap : a < maxAttempts
          · rw [pollCycle_processing videoId a ls st hc hf hcap]
            exact jobInv_updateVideoStatus st videoId _ h
          · rw [pollCycle_timeout videoId a ls st hc hf
              (Nat.not_lt.mp hcap)]
            exact jobInv_updateVideoStatus st videoId _ h
  · rw [pollCycle_notLuma videoId model a resp st hm]
    exact jobInv_updateVideoStatus st videoId _ h

theorem chainStores_jobInv (videoId model : String) :
    ∀ (resps : List PollResp) (a : Nat) (st : MemStorage),
    JobStatusInv st →
    ∀ s ∈ chainStores videoId model a resps st, JobStatusInv s
  | [], _, st => by
      intro _ s hs
      simp [chainStores] at hs
  | r :: rs, a, st => by
      intro h s hs
      rw [chainStores] at hs
      have hc1 : JobStatusInv (pollCycle videoId model a r st).1 :=
        pollCycle_jobInv videoId model a r st h
      rcases List.mem_cons.mp hs with hs1 | hs2
      · rw [hs1]
        exact hc1
      · by_cases hag : (pollCycle videoId model a r st).2 = true
        · rw [if_pos hag] at hs2
          exact chainStores_jobInv videoId model rs (a + 1) _ hc1 s hs2
        · rw [if_neg hag] at hs2
          simp at hs2

/-- Final store of the concrete keyless gemini request: submission
throws, the status record fails, the job record stays pending. -/
def geminiFailStore : MemStorage :=
  (generateHandler envNone oracleFail reqGemini "v1" "t0"
    emptyStore).stores.getLastD emptyStore

/-- C10: in every store the orchestrator can reach, the status field
of the job record itself is only ever "pending" or "completed" — "processing"
and "failed" go exclusively to the status record — and in the concrete
keyless-gemini run the job endpoint would report "pending" while the
status endpoint reports "failed" for the same id. -/
theorem job_status_pending_or_completed (env : Env) (o : Oracle)
    (req : GenerateRequest) (newId ts : String) (st0 : MemStorage)
    (resps : List PollResp) (hinv : JobStatusInv st0) :
    (∀ st ∈ fullTrace env o req newId ts st0 resps, JobStatusInv st) ∧
    ((getVideoGeneration geminiFailStore "v1").map
        VideoGenerationResponse.status = some "pending" ∧
      (getVideoStatus geminiFailStore "v1").map VideoStatus.status =
        some "failed") := by
  refine ⟨?_, rfl, rfl⟩
  intro st hst
  have hinv1 : JobStatusInv (handlerSt1 req newId ts st0) :=
    jobInv_storeVideoGeneration st0 newId (handlerInit req ts) rfl hinv
  by_cases hv : validateRequest req = true
  · rcases hsub : trySubmit env o req.model req.prompt
        ((req.duration.toNat?).getD 0) ts with msg | result
    · rw [fullTrace, generateHandler_submitError env o req newId ts st0
        msg hv hsub] at hst
      simp only [Bool.false_eq_true, if_neg, List.append_nil] at hst
      rcases List.mem_cons.mp hst with h1 | h2
      · rw [h1]
        exact hinv1
      · rcases List.mem_cons.mp h2 with h3 | h4
        · rw [h3]
          exact jobInv_updateVideoStatus _ newId _ hinv1
        · simp at h4
    · by_cases hurl : optStrTruthy result.videoUrl = true
      · rw [fullTrace, generateHandler_syncAsset env o req newId ts st0
          result hv hsub hurl] at hst
        simp only [Bool.false_eq_true, if_neg, List.append_nil] at hst
        rcases List.mem_cons.mp hst with h1 | h2
        · rw [h1]
          exact hinv1
        · rcases List.mem_cons.mp h2 with h3 | h4
          · rw [h3]
            exact jobInv_updateVideoResult _ newId _ rfl hinv1
          · rcases List.mem_cons.mp h4 with h5 | h6
            · rw [h5]
              exact jobInv_updateVideoStatus _ newId _
                (jobInv_updateVideoResult _ newId _ rfl hinv1)
            · simp at h6
      · have hurl2 : optStrTruthy result.videoUrl = false := by
          simpa using hurl
        rw [fullTrace, generateHandler_async env o req newId ts st0
          result hv hsub hurl2] at hst
        simp only [if_pos, getLastD_two, List.cons_append,
          List.nil_append] at hst
        have hinv2 : JobStatusInv
            (updateVideoStatus (handlerSt1 req newId ts st0) newId
              { status := some "processing", progress := some 10,
                message := some "Video generation started" }) :=
          jobInv_updateVideoStatus _ newId _ hinv1
        rcases List.mem_cons.mp hst with h1 | h2
        · rw [h1]
          exact hinv1
        · rcases List.mem_cons.mp h2 with h3 | h4
          · rw [h3]
            exact hinv2
          · exact chainStores_jobInv newId req.model resps 1 _ hinv2
              st h4
  · rw [fullTrace, generateHandler_invalid env o req newId ts st0
      (by simpa using hv)] at hst
    simp at hst

/-- Witness for C10: the empty store satisfies the invariant, the
theorem transports it to the final store of the keyless-gemini run, and
the two endpoint views disagree there as claimed. -/
theorem job_status_pending_or_completed_witness :
    JobStatusInv emptyStore ∧
    JobStatusInv geminiFailStore ∧
    (getVideoGeneration geminiFailStore "v1").map
      VideoGenerationResponse.status = some "pending" ∧
    (getVideoStatus geminiFailStore "v1").map VideoStatus.status =
      some "failed" := by
  have hinv : JobStatusInv emptyStore := by
    intro id v hv
    exact absurd hv (by simp [emptyStore])
  have h := job_status_pending_or_completed envNone oracleFail reqGemini
    "v1" "t0" emptyStore [] hinv
  refine ⟨hinv, ?_, h.2.1, h.2.2⟩
  exact h.1 geminiFailStore (List.Mem.tail _ (List.Mem.head _))
